import Mathlib

/-!
Shallow embedding of the `persona-backend` Flask application (`app.py`).

The application is a small HTTP backend with seven JSON endpoints backed by a
single in-process mutable store `memory`.  We embed it as pure Lean functions:

* The network (the `requests.post` call to the OpenRouter endpoint together
  with `r.json()` decoding) is an oracle `Net : ORRequest → Transport`.  A
  `Transport` value says whether the POST raised, whether the body decoded,
  and what JSON body was decoded.
* JSON response bodies from the upstream are modelled by `Json`: either an
  object containing a `"choices"` key (its list of `choices[i].message.content`
  strings), the object `\x7b"error": e\x7d` built by the `except` branch, or any
  other body without a `"choices"` key.
* Each Flask handler becomes a function from its (already JSON-decoded)
  request-body fields, a timestamp (the `time.time()` reading) and the current
  `Memory` to a `HOut`: the HTTP response, the new `Memory`, and the transcript
  of upstream requests issued (in order), so that call counts and the payloads
  sent upstream are observable.
* An uncaught Python exception (e.g. `IndexError` from `resp["choices"][0]`
  on an empty list) is modelled by a distinguished `exn` response constructor.
* `MODEL` (read from the environment at startup) is threaded as an explicit
  parameter to the handlers that use it.
-/

namespace Persona

/-- Python `s.strip()`: remove whitespace characters from both ends. -/
def pyStrip (s : String) : String :=
  ⟨((s.data.dropWhile Char.isWhitespace).reverse.dropWhile Char.isWhitespace).reverse⟩

/-- Python `s.lower()`: lower-case every character. -/
def pyLower (s : String) : String :=
  ⟨s.data.map Char.toLower⟩

/-- One element of the `messages` array sent to the chat-completions API:
a `\x7b"role": ..., "content": ...\x7d` object. -/
structure Message where
  role : String
  content : String
deriving DecidableEq

/-- The full upstream request assembled by `call_openrouter`: model name,
messages, `max_tokens`, `temperature` (recorded in tenths, to stay in exact
arithmetic: `7` stands for `0.7`), and the `X-Title` header label. -/
structure ORRequest where
  model : String
  messages : List Message
  max_tokens : Nat
  temperatureTenths : Nat
  title : String
deriving DecidableEq

/-- A JSON body as the handlers observe it.  `withChoices cs` is any object
containing the key `"choices"`, with `cs` the list of
`choices[i]["message"]["content"]` strings; `errObj e` is the object
`\x7b"error": e\x7d`; `otherBody p` is any other object without a `"choices"`
key (`p` an abstract rendering of it). -/
inductive Json where
  | withChoices (choices : List String) : Json
  | errObj (error : String) : Json
  | otherBody (payload : String) : Json
deriving DecidableEq

/-- What the network does for one outbound request: `raise e` models
`requests.post` raising (timeout, DNS failure, connection reset, ...);
`response (.error e)` models an HTTP response whose body `r.json()` fails to
decode; `response (.ok d)` models a response decoding to the JSON body `d`. -/
inductive Transport where
  | raise (e : String) : Transport
  | response (body : Except String Json) : Transport

/-- The network oracle: the behaviour of the external API for each request. -/
def Net : Type := ORRequest → Transport

/-- The upstream client `call_openrouter` (app.py lines 34-50): issue the POST and decode the
body; any exception is caught and turned into `\x7b"error": str(e)\x7d`; on
success the decoded body is returned unmodified. -/
def call_openrouter (net : Net) (messages : List Message) (model : String)
    (max_tokens temperatureTenths : Nat) (title : String) : Json :=
  match net ⟨model, messages, max_tokens, temperatureTenths, title⟩ with
  | .raise e => .errObj e
  | .response (.error e) => .errObj e
  | .response (.ok data) => data

/-- The Python test `"choices" in resp` (key presence only). -/
def hasChoices : Json → Bool
  | .withChoices _ => true
  | .errObj _ => false
  | .otherBody _ => false

/-- The extraction `resp["choices"][0]["message"]["content"]`: defined only
when the choices list is non-empty (`none` models the `IndexError` raised on
an empty list). -/
def firstChoice : Json → Option String
  | .withChoices cs => cs.head?
  | .errObj _ => none
  | .otherBody _ => none

/-- A `\x7buser, ai, ts\x7d` entry of `memory["history"]["chats"]`. -/
structure ChatRecord where
  user : String
  ai : String
  ts : Nat
deriving DecidableEq

/-- A `\x7bgoal, items, ts\x7d` entry of `memory["history"]["tasks"]`. -/
structure TaskRecord where
  goal : String
  items : String
  ts : Nat
deriving DecidableEq

/-- A `\x7bthread, draft, ts\x7d` entry of `memory["history"]["emails"]`. -/
structure EmailRecord where
  thread : String
  draft : String
  ts : Nat
deriving DecidableEq

/-- The `memory["history"]` sub-dictionary: three append-only logs. -/
structure History where
  chats : List ChatRecord
  tasks : List TaskRecord
  emails : List EmailRecord
deriving DecidableEq

/-- The global mutable store `memory` (app.py lines 14-23). -/
structure Memory where
  xp : Int
  last_chat : Option String
  last_tasks : Option String
  history : History
deriving DecidableEq

/-- The initial value of `memory`. -/
def initMemory : Memory :=
  { xp := 500, last_chat := none, last_tasks := none
    history := { chats := [], tasks := [], emails := [] } }

/-- Result of one handler invocation: the HTTP response, the new state of
`memory`, and the transcript of upstream requests issued, in order. -/
structure HOut (ρ : Type) where
  resp : ρ
  mem : Memory
  calls : List ORRequest
deriving DecidableEq

/-- HTTP responses of `/api/ask`: `replyResp` is `\x7breply, model\x7d` with
status 200, `errorResp msg s` is `\x7b"error": msg\x7d` with status `s`, and
`exn` is an uncaught Python exception escaping the handler. -/
inductive AskResp where
  | replyResp (reply model : String) : AskResp
  | errorResp (error : String) (status : Nat) : AskResp
  | exn : AskResp
deriving DecidableEq

/-- The system prompt of `/api/ask`. -/
def askSystem : String :=
  "You are Persona, a concise, friendly assistant. Reply in under 3 lines, with clarity and encouragement."

/-- The fixed fallback list of `/api/ask` (app.py lines 68-72). -/
def askModels : List String :=
  ["meta-llama/llama-3.1-8b-instruct",
   "mistralai/mistral-7b-instruct-v0.3",
   "google/gemma-2-9b-it"]

/-- The `messages` array sent by `/api/ask` for user text `q`. -/
def askMessages (q : String) : List Message :=
  [⟨"system", askSystem⟩, ⟨"user", q⟩]

/-- The upstream request issued by `/api/ask` for user text `q` and model `m`. -/
def askRequest (q m : String) : ORRequest :=
  ⟨m, askMessages q, 80, 7, "Persona Chat"⟩

/-- The upstream response `/api/ask` obtains for model `m`. -/
def askAttempt (net : Net) (q m : String) : Json :=
  call_openrouter net (askMessages q) m 80 7 "Persona Chat"

/-- The `for m in models` loop of `/api/ask` (app.py lines 74-87), after
`memory["last_chat"]` has been set: try each model in order; on the first
response containing the `"choices"` key, extract the first choice (raising if
the list is empty), append to chat history and return; if the loop completes,
return the 500 `"All models failed"` response. -/
def askLoop (net : Net) (q : String) (ts : Nat) (mem : Memory) :
    List String → HOut AskResp
  | [] => ⟨.errorResp "All models failed" 500, mem, []⟩
  | m :: rest =>
    let resp := askAttempt net q m
    if hasChoices resp then
      match firstChoice resp with
      | some ai =>
        ⟨.replyResp ai m,
         { mem with history :=
             { mem.history with chats := mem.history.chats ++ [⟨q, ai, ts⟩] } },
         [askRequest q m]⟩
      | none => ⟨.exn, mem, [askRequest q m]⟩
    else
      let r := askLoop net q ts mem rest
      ⟨r.resp, r.mem, askRequest q m :: r.calls⟩

/-- The `/api/ask` handler (app.py lines 53-87).  `bodyMessage` is the
`"message"` field of the JSON body (`none` when absent). -/
def ask (net : Net) (bodyMessage : Option String) (ts : Nat) (mem : Memory) :
    HOut AskResp :=
  let q := pyStrip (bodyMessage.getD "")
  if q = "" then ⟨.errorResp "Empty message" 400, mem, []⟩
  else askLoop net q ts { mem with last_chat := some q } askModels

/-- HTTP responses of `/api/tasks`: `tasksResp` is `\x7btasks\x7d` with status
200, `errorPayload j s` is `\x7b"error": j\x7d` with status `s` (`j` the raw
upstream body), and `exn` an uncaught exception. -/
inductive TasksResp where
  | tasksResp (tasks : String) : TasksResp
  | errorPayload (error : Json) (status : Nat) : TasksResp
  | exn : TasksResp
deriving DecidableEq

/-- The system prompt of `/api/tasks`. -/
def tasksSystem : String :=
  "You are Persona, an intelligent planner. Output exactly 3 short bullet points, crisp and doable."

/-- The `messages` array sent by `/api/tasks` for goal `goal`. -/
def tasksMessages (goal : String) : List Message :=
  [⟨"system", tasksSystem⟩, ⟨"user", goal⟩]

/-- The upstream request issued by `/api/tasks`. -/
def tasksRequest (MODEL goal : String) : ORRequest :=
  ⟨MODEL, tasksMessages goal, 90, 7, "Persona Task Generator"⟩

/-- The `/api/tasks` handler (app.py lines 90-111).  `bodyGoal` is the
`"goal"` field of the JSON body (`none` when the key is absent). -/
def create_tasks (net : Net) (MODEL : String) (bodyGoal : Option String)
    (ts : Nat) (mem : Memory) : HOut TasksResp :=
  let goal := pyStrip (bodyGoal.getD "Plan my day effectively")
  let resp := call_openrouter net (tasksMessages goal) MODEL 90 7 "Persona Task Generator"
  if hasChoices resp then
    match firstChoice resp with
    | some items =>
      ⟨.tasksResp items,
       { mem with last_tasks := some items,
                  history :=
                    { mem.history with tasks := mem.history.tasks ++ [⟨goal, items, ts⟩] } },
       [tasksRequest MODEL goal]⟩
    | none => ⟨.exn, mem, [tasksRequest MODEL goal]⟩
  else ⟨.errorPayload resp 400, mem, [tasksRequest MODEL goal]⟩

/-- HTTP responses of `/api/draft-email`: `draftResp` is `\x7bdraft\x7d` with
status 200, `errorResp` the fixed `"Empty thread"` 400, `errorPayload` the raw
upstream body with status 400, `exn` an uncaught exception. -/
inductive EmailResp where
  | draftResp (draft : String) : EmailResp
  | errorResp (error : String) (status : Nat) : EmailResp
  | errorPayload (error : Json) (status : Nat) : EmailResp
  | exn : EmailResp
deriving DecidableEq

/-- The system prompt of `/api/draft-email`. -/
def emailSystem : String :=
  "You are Persona, a professional email assistant. Write a concise reply under 100 words, with greeting and closing."

/-- The `messages` array sent by `/api/draft-email` for thread `thread`. -/
def emailMessages (thread : String) : List Message :=
  [⟨"system", emailSystem⟩,
   ⟨"user", "Draft a reply for this thread:\n\n" ++ thread⟩]

/-- The upstream request issued by `/api/draft-email`. -/
def emailRequest (MODEL thread : String) : ORRequest :=
  ⟨MODEL, emailMessages thread, 130, 6, "Persona Email Writer"⟩

/-- The `/api/draft-email` handler (app.py lines 114-141).  `bodyThread` is
the `"thread"` field of the JSON body. -/
def draft_email (net : Net) (MODEL : String) (bodyThread : Option String)
    (ts : Nat) (mem : Memory) : HOut EmailResp :=
  let thread := pyStrip (bodyThread.getD "")
  if thread = "" then ⟨.errorResp "Empty thread" 400, mem, []⟩
  else
    let mem1 := { mem with last_chat := some thread }
    let resp := call_openrouter net (emailMessages thread) MODEL 130 6 "Persona Email Writer"
    if hasChoices resp then
      match firstChoice resp with
      | some draft =>
        ⟨.draftResp draft,
         { mem1 with history :=
             { mem1.history with emails := mem1.history.emails ++ [⟨thread, draft, ts⟩] } },
         [emailRequest MODEL thread]⟩
      | none => ⟨.exn, mem1, [emailRequest MODEL thread]⟩
    else ⟨.errorPayload resp 400, mem1, [emailRequest MODEL thread]⟩

/-- The response body of `/api/xp`. -/
structure XpResp where
  action : String
  xp_gained : Int
  total_xp : Int
deriving DecidableEq

/-- Python `a or dflt` for an optional string `a`: `None` and the empty
string are falsy and give `dflt`. -/
def pyOr (a : Option String) (dflt : String) : String :=
  match a with
  | none => dflt
  | some s => if s = "" then dflt else s

/-- The gain table `\x7b"chat":10, "task":20, "email":15\x7d.get(action, 5)`. -/
def xpGainTable (action : String) : Int :=
  if action = "chat" then 10
  else if action = "task" then 20
  else if action = "email" then 15
  else 5

/-- The `/api/xp` handler (app.py lines 144-151).  `bodyAction` is the
`"action"` field of the JSON body (`none` for absent or `null`). -/
def xp_update (bodyAction : Option String) (mem : Memory) : HOut XpResp :=
  let action := pyLower (pyOr bodyAction "chat")
  let gain := xpGainTable action
  let mem' := { mem with xp := mem.xp + gain }
  ⟨⟨action, gain, mem'.xp⟩, mem', []⟩

/-- The response body of `/api/health`. -/
structure HealthResp where
  ok : Bool
  model : String
  xp : Int
  last_chat : Option String
  last_tasks : Option String
deriving DecidableEq

/-- The `/api/health` handler (app.py lines 154-162). -/
def health (MODEL : String) (mem : Memory) : HOut HealthResp :=
  ⟨⟨true, MODEL, mem.xp, mem.last_chat, mem.last_tasks⟩, mem, []⟩

/-- Python `l[-n:]`: the last `min n l.length` elements of `l`. -/
def lastSlice (n : Nat) (l : List α) : List α :=
  l.drop (l.length - n)

/-- The `/api/history` handler (app.py lines 165-174): the last 20 entries of
each log, the stored state untouched. -/
def get_history (mem : Memory) : HOut History :=
  ⟨⟨lastSlice 20 mem.history.chats,
    lastSlice 20 mem.history.tasks,
    lastSlice 20 mem.history.emails⟩, mem, []⟩

/-- The response body of `/api/history/clear`. -/
structure ClearResp where
  ok : Bool
deriving DecidableEq

/-- The `/api/history/clear` handler (app.py lines 176-180): replaces
`memory["history"]` with three fresh empty lists. -/
def clear_history (mem : Memory) : HOut ClearResp :=
  ⟨⟨true⟩, { mem with history := { chats := [], tasks := [], emails := [] } }, []⟩

/-- A network on which every POST raises (e.g. a timeout): `str(e) = "boom"`. -/
def failNet : Net := fun _ => .raise "boom"

/-- A network that answers but with a body that fails to JSON-decode. -/
def decodeFailNet : Net := fun _ => .response (.error "bad json")

/-- A network that answers with a decodable body without a `"choices"` key. -/
def okBodyNet : Net := fun _ => .response (.ok (.otherBody "ack"))

/-- A network on which the primary model errors and every other model
answers with one choice: the fake upstream of the spec's fallback test. -/
def secondModelNet : Net := fun req =>
  if req.model = "meta-llama/llama-3.1-8b-instruct" then .raise "boom"
  else .response (.ok (.withChoices ["hello there"]))

/-- A network whose every response is `\x7b"choices": []\x7d`: a `"choices"`
key mapped to an empty list. -/
def emptyChoicesNet : Net := fun _ => .response (.ok (.withChoices []))

/-- A network on which the primary model answers `\x7b"choices": []\x7d` and
every other model answers with the single choice `"hi"`. -/
def emptyThenFullNet : Net := fun req =>
  if req.model = "meta-llama/llama-3.1-8b-instruct" then
    .response (.ok (.withChoices []))
  else .response (.ok (.withChoices ["hi"]))

/-! ## Helper lemmas -/

/-- Models whose responses lack the `"choices"` key are skipped: the loop
result on `pre ++ rest` is the result on `rest`, with the requests for `pre`
prepended to the transcript. -/
lemma askLoop_skip (net : Net) (q : String) (ts : Nat) (mem : Memory)
    (pre rest : List String)
    (hpre : ∀ m ∈ pre, hasChoices (askAttempt net q m) = false) :
    askLoop net q ts mem (pre ++ rest) =
      ⟨(askLoop net q ts mem rest).resp, (askLoop net q ts mem rest).mem,
       pre.map (askRequest q) ++ (askLoop net q ts mem rest).calls⟩ := by
  induction pre with
  | nil => simp
  | cons m pre ih =>
    have hm : hasChoices (askAttempt net q m) = false := hpre m (by simp)
    have hrest : ∀ m' ∈ pre, hasChoices (askAttempt net q m') = false :=
      fun m' h => hpre m' (by simp [h])
    simp [List.cons_append, askLoop, hm, ih hrest]

/-- The `/api/ask` loop only ever appends to the chat log and leaves the
task and email logs untouched. -/
lemma askLoop_history (net : Net) (q : String) (ts : Nat) (mem : Memory)
    (ms : List String) :
    (∃ t, (askLoop net q ts mem ms).mem.history.chats = mem.history.chats ++ t) ∧
    (askLoop net q ts mem ms).mem.history.tasks = mem.history.tasks ∧
    (askLoop net q ts mem ms).mem.history.emails = mem.history.emails := by
  induction ms with
  | nil => exact ⟨⟨[], by simp [askLoop]⟩, rfl, rfl⟩
  | cons m rest ih =>
    simp only [askLoop]
    split
    · split
      · exact ⟨⟨_, rfl⟩, rfl, rfl⟩
      · exact ⟨⟨[], by simp⟩, rfl, rfl⟩
    · exact ih

/-- The window returned by `lastSlice n` is a suffix of the list of length
`min n l.length`. -/
lemma lastSlice_spec (n : Nat) (l : List α) :
    (∃ p, l = p ++ lastSlice n l) ∧ (lastSlice n l).length = min n l.length := by
  refine ⟨⟨l.take (l.length - n), (List.take_append_drop _ l).symm⟩, ?_⟩
  simp only [lastSlice, List.length_drop]
  omega

/-! ## Claims -/

/-- C4: for every request to `/api/ask` whose `message` field is blank or
whitespace-only (or absent), the handler returns HTTP 400 with body
`\x7b"error": "Empty message"\x7d`, makes no upstream call, and does not
mutate the stored state (in particular the history logs). -/
theorem ask_blank_message_rejected (net : Net) (bodyMessage : Option String)
    (ts : Nat) (mem : Memory)
    (hblank : pyStrip (bodyMessage.getD "") = "") :
    ask net bodyMessage ts mem = ⟨.errorResp "Empty message" 400, mem, []⟩ := by
  simp [ask, hblank]

/-- C4 witness: a whitespace-only message on the always-failing network. -/
theorem ask_blank_message_rejected_witness :
    ask failNet (some "   ") 3 initMemory =
      ⟨.errorResp "Empty message" 400, initMemory, []⟩ :=
  ask_blank_message_rejected failNet (some "   ") 3 initMemory (by decide)

/-- C5: `call_openrouter` never raises past its boundary: whenever the POST
raises or the body fails to decode it returns the JSON object
`\x7b"error": e\x7d` carrying the diagnostic string, and whenever the body
decodes it returns the decoded body unmodified, whatever it contains. -/
theorem call_openrouter_never_raises (net : Net) (messages : List Message)
    (model : String) (max_tokens temperatureTenths : Nat) (title : String) :
    (∀ e, net ⟨model, messages, max_tokens, temperatureTenths, title⟩ = .raise e →
      call_openrouter net messages model max_tokens temperatureTenths title = .errObj e) ∧
    (∀ e, net ⟨model, messages, max_tokens, temperatureTenths, title⟩ = .response (.error e) →
      call_openrouter net messages model max_tokens temperatureTenths title = .errObj e) ∧
    (∀ d, net ⟨model, messages, max_tokens, temperatureTenths, title⟩ = .response (.ok d) →
      call_openrouter net messages model max_tokens temperatureTenths title = d) := by
  refine ⟨fun e h => ?_, fun e h => ?_, fun d h => ?_⟩ <;> simp [call_openrouter, h]

/-- C5 witness: a raising transport, an undecodable body, and a decodable
body without `"choices"`, each at a concrete request. -/
theorem call_openrouter_never_raises_witness :
    call_openrouter failNet [] "m" 80 7 "t" = .errObj "boom" ∧
    call_openrouter decodeFailNet [] "m" 80 7 "t" = .errObj "bad json" ∧
    call_openrouter okBodyNet [] "m" 80 7 "t" = .otherBody "ack" :=
  ⟨(call_openrouter_never_raises failNet [] "m" 80 7 "t").1 "boom" rfl,
   (call_openrouter_never_raises decodeFailNet [] "m" 80 7 "t").2.1 "bad json" rfl,
   (call_openrouter_never_raises okBodyNet [] "m" 80 7 "t").2.2 (.otherBody "ack") rfl⟩

/-- C1 (amended): the `/api/ask` fallback loop tries the models in their
fixed order and stops at the first upstream response containing the
`"choices"` key; when that list is non-empty (head `c`), the handler replies
with `c` tagged with that model's identifier, appends the exchange to the
chat history, and has issued exactly one upstream request per model tried —
in particular, when the first model's response lacks `"choices"` and the
second's has a non-empty list, exactly two upstream calls are made and the
reply is tagged with the second model's identifier. -/
theorem ask_stops_at_first_choices (net : Net) (bodyMessage : Option String)
    (ts : Nat) (mem : Memory) (q : String)
    (hq : q = pyStrip (bodyMessage.getD "")) (hne : q ≠ "")
    (pre suf : List String) (m : String)
    (hmodels : askModels = pre ++ m :: suf)
    (hpre : ∀ m' ∈ pre, hasChoices (askAttempt net q m') = false)
    (c : String) (cs : List String)
    (hhit : askAttempt net q m = .withChoices (c :: cs)) :
    ask net bodyMessage ts mem =
      ⟨.replyResp c m,
       { mem with last_chat := some q,
                  history :=
                    { mem.history with chats := mem.history.chats ++ [⟨q, c, ts⟩] } },
       (pre ++ [m]).map (askRequest q)⟩ := by
  have hcons : ∀ memx : Memory,
      askLoop net q ts memx (m :: suf) =
        ⟨.replyResp c m,
         { memx with history :=
             { memx.history with chats := memx.history.chats ++ [⟨q, c, ts⟩] } },
         [askRequest q m]⟩ := by
    intro memx
    simp [askLoop, hhit, hasChoices, firstChoice]
  simp only [ask, ← hq, if_neg hne, hmodels,
    askLoop_skip net q ts { mem with last_chat := some q } pre (m :: suf) hpre, hcons]
  simp

/-- C1 witness: on a network where the primary model errors and the fallback
models answer with one choice, `/api/ask` replies with the second model's
content tagged with the second model's identifier after exactly two calls. -/
theorem ask_stops_at_first_choices_witness :
    ask secondModelNet (some " hi ") 7 initMemory =
      ⟨.replyResp "hello there" "mistralai/mistral-7b-instruct-v0.3",
       { initMemory with last_chat := some "hi",
                         history :=
                           { initMemory.history with
                               chats := [⟨"hi", "hello there", 7⟩] } },
       [askRequest "hi" "meta-llama/llama-3.1-8b-instruct",
        askRequest "hi" "mistralai/mistral-7b-instruct-v0.3"]⟩ :=
  ask_stops_at_first_choices secondModelNet (some " hi ") 7 initMemory "hi"
    (by decide) (by decide)
    ["meta-llama/llama-3.1-8b-instruct"] ["google/gemma-2-9b-it"]
    "mistralai/mistral-7b-instruct-v0.3" (by decide) (by decide)
    "hello there" [] (by decide)

/-- C1 counterexample: on a network whose primary model answers
`\x7b"choices": []\x7d` and whose second model answers with the non-empty
choice list `["hi"]`, the claim as stated predicts a reply `"hi"` tagged with
the second model after two calls; the handler instead raises after a single
call, because the guard tests key presence only. -/
theorem ask_stops_at_first_choices_counterexample :
    hasChoices (askAttempt emptyThenFullNet "hello" "mistralai/mistral-7b-instruct-v0.3") = true ∧
    firstChoice (askAttempt emptyThenFullNet "hello" "mistralai/mistral-7b-instruct-v0.3") = some "hi" ∧
    (ask emptyThenFullNet (some "hello") 0 initMemory).resp = .exn ∧
    (ask emptyThenFullNet (some "hello") 0 initMemory).resp ≠
      .replyResp "hi" "mistralai/mistral-7b-instruct-v0.3" ∧
    (ask emptyThenFullNet (some "hello") 0 initMemory).calls.length = 1 := by
  decide

/-- C2: for every `/api/ask` request with a non-blank message on a network
where no model's response contains the `"choices"` key, the handler makes
exactly three upstream calls (one per model, in the fixed order, no retries),
returns HTTP 500 with body `\x7b"error": "All models failed"\x7d`, leaves the
history logs untouched, and discards the per-attempt errors (the result is
the same whatever the individual failures were). -/
theorem ask_all_models_fail (net : Net) (bodyMessage : Option String)
    (ts : Nat) (mem : Memory) (q : String)
    (hq : q = pyStrip (bodyMessage.getD "")) (hne : q ≠ "")
    (hfail : ∀ m ∈ askModels, hasChoices (askAttempt net q m) = false) :
    ask net bodyMessage ts mem =
      ⟨.errorResp "All models failed" 500,
       { mem with last_chat := some q },
       askModels.map (askRequest q)⟩ := by
  have h : askLoop net q ts { mem with last_chat := some q } askModels =
      ⟨.errorResp "All models failed" 500, { mem with last_chat := some q },
       askModels.map (askRequest q)⟩ := by
    have hs := askLoop_skip net q ts { mem with last_chat := some q } askModels [] hfail
    simpa [askLoop] using hs
  simp only [ask, ← hq, if_neg hne]
  exact h

/-- C2 witness: on the always-raising network, `/api/ask` with message
`" hi "` returns the 500 response after exactly the three model requests. -/
theorem ask_all_models_fail_witness :
    ask failNet (some " hi ") 5 initMemory =
      ⟨.errorResp "All models failed" 500,
       { initMemory with last_chat := some "hi" },
       askModels.map (askRequest "hi")⟩ :=
  ask_all_models_fail failNet (some " hi ") 5 initMemory "hi"
    (by decide) (by decide) (by decide)

/-- C3 counterexample: for the request body `\x7b"action": ""\x7d` the claim
predicts the action label `""` (the given string lower-cased) and the default
gain 5 (no table entry for `""`); the handler instead labels the action
`"chat"` and gains 10, because Python's `or` treats the empty string as
falsy. -/
theorem xp_update_empty_action_counterexample :
    pyLower "" = "" ∧ xpGainTable "" = 5 ∧
    (xp_update (some "") initMemory).resp.action = "chat" ∧
    (xp_update (some "") initMemory).resp.xp_gained = 10 ∧
    (xp_update (some "") initMemory).mem.xp = initMemory.xp + 10 := by
  decide

/-- C3 (amended): `/api/xp` computes the action label as the given string
lower-cased, defaulting to `"chat"` when the action is absent, null, or the
empty string; it looks the label up in the gain table
`\x7b"chat": 10, "task": 20, "email": 15\x7d` with default 5 for any other
label, adds the gain to the running total, and returns the action, the gain
and the new total; hence action `"task"` increases the total by exactly 20,
an unrecognized non-empty action by exactly 5, and an omitted (or empty)
action by exactly 10. -/
theorem xp_update_gains (mem : Memory) (a : String) (ha : a ≠ "")
    (hc : pyLower a ≠ "chat") (ht : pyLower a ≠ "task") (he : pyLower a ≠ "email") :
    (xp_update (some "task") mem).mem.xp = mem.xp + 20 ∧
    (xp_update (some a) mem).mem.xp = mem.xp + 5 ∧
    (xp_update none mem).mem.xp = mem.xp + 10 ∧
    (xp_update (some "") mem).mem.xp = mem.xp + 10 ∧
    (∀ b, (xp_update b mem).resp =
      ⟨pyLower (pyOr b "chat"), xpGainTable (pyLower (pyOr b "chat")),
       (xp_update b mem).mem.xp⟩ ∧
      (xp_update b mem).mem.xp = mem.xp + xpGainTable (pyLower (pyOr b "chat")) ∧
      (xp_update b mem).mem.last_chat = mem.last_chat ∧
      (xp_update b mem).mem.last_tasks = mem.last_tasks ∧
      (xp_update b mem).mem.history = mem.history) := by
  have htask : pyLower (pyOr (some "task") "chat") = "task" := by decide
  have hchat : pyLower (pyOr none "chat") = "chat" := by decide
  have hempty : pyLower (pyOr (some "") "chat") = "chat" := by decide
  have hA : pyOr (some a) "chat" = a := by simp [pyOr, ha]
  refine ⟨?_, ?_, ?_, ?_, fun b => ⟨rfl, rfl, rfl, rfl, rfl⟩⟩
  · simp [xp_update, htask, xpGainTable]
  · simp [xp_update, hA, xpGainTable, hc, ht, he]
  · simp [xp_update, hchat, xpGainTable]
  · simp [xp_update, hempty, xpGainTable]

/-- C3 witness: the amended claim at the initial state with the unrecognized
action `"xyz"`. -/
theorem xp_update_gains_witness :
    (xp_update (some "task") initMemory).mem.xp = initMemory.xp + 20 ∧
    (xp_update (some "xyz") initMemory).mem.xp = initMemory.xp + 5 ∧
    (xp_update none initMemory).mem.xp = initMemory.xp + 10 := by
  have h := xp_update_gains initMemory "xyz" (by decide) (by decide) (by decide) (by decide)
  exact ⟨h.1, h.2.1, h.2.2.1⟩

/-- C6: `/api/history` returns, for each of the chats, tasks and emails logs,
exactly the most recent `min 20 length` entries as a suffix of the stored
list (insertion order, oldest of the window first), does not modify the
stored state, and makes no upstream call. -/
theorem get_history_window (mem : Memory) :
    (∃ p, mem.history.chats = p ++ (get_history mem).resp.chats) ∧
    (get_history mem).resp.chats.length = min 20 mem.history.chats.length ∧
    (∃ p, mem.history.tasks = p ++ (get_history mem).resp.tasks) ∧
    (get_history mem).resp.tasks.length = min 20 mem.history.tasks.length ∧
    (∃ p, mem.history.emails = p ++ (get_history mem).resp.emails) ∧
    (get_history mem).resp.emails.length = min 20 mem.history.emails.length ∧
    (get_history mem).mem = mem ∧ (get_history mem).calls = [] :=
  ⟨(lastSlice_spec 20 mem.history.chats).1, (lastSlice_spec 20 mem.history.chats).2,
   (lastSlice_spec 20 mem.history.tasks).1, (lastSlice_spec 20 mem.history.tasks).2,
   (lastSlice_spec 20 mem.history.emails).1, (lastSlice_spec 20 mem.history.emails).2,
   rfl, rfl⟩

/-- C8: an upstream response whose body maps `"choices"` to an empty list
passes the key-presence guard yet makes the first-choice extraction
undefined, so `/api/ask`, `/api/tasks` and `/api/draft-email` all raise
instead of falling through to their failure branches. -/
theorem empty_choices_raises :
    hasChoices (.withChoices []) = true ∧
    firstChoice (.withChoices []) = none ∧
    (ask emptyChoicesNet (some "hi") 0 initMemory).resp = .exn ∧
    (ask emptyChoicesNet (some "hi") 0 initMemory).resp ≠
      .errorResp "All models failed" 500 ∧
    (create_tasks emptyChoicesNet "m" (some "goal") 0 initMemory).resp = .exn ∧
    (create_tasks emptyChoicesNet "m" (some "goal") 0 initMemory).resp ≠
      .errorPayload (.withChoices []) 400 ∧
    (draft_email emptyChoicesNet "m" (some "thread") 0 initMemory).resp = .exn ∧
    (draft_email emptyChoicesNet "m" (some "thread") 0 initMemory).resp ≠
      .errorPayload (.withChoices []) 400 := by
  decide

/-- C7: the history logs are append-only — every handler either leaves each
log unchanged or appends to its end, except `/api/history/clear`, which
replaces all three logs with empty sequences in one step; consequently
`/api/history` immediately after a clear returns empty sequences for chats,
tasks and emails. -/
theorem history_append_only :
    (∀ (net : Net) (bodyMessage : Option String) (ts : Nat) (mem : Memory),
      (∃ t, (ask net bodyMessage ts mem).mem.history.chats = mem.history.chats ++ t) ∧
      (ask net bodyMessage ts mem).mem.history.tasks = mem.history.tasks ∧
      (ask net bodyMessage ts mem).mem.history.emails = mem.history.emails) ∧
    (∀ (net : Net) (MODEL : String) (bodyGoal : Option String) (ts : Nat) (mem : Memory),
      (∃ t, (create_tasks net MODEL bodyGoal ts mem).mem.history.tasks = mem.history.tasks ++ t) ∧
      (create_tasks net MODEL bodyGoal ts mem).mem.history.chats = mem.history.chats ∧
      (create_tasks net MODEL bodyGoal ts mem).mem.history.emails = mem.history.emails) ∧
    (∀ (net : Net) (MODEL : String) (bodyThread : Option String) (ts : Nat) (mem : Memory),
      (∃ t, (draft_email net MODEL bodyThread ts mem).mem.history.emails = mem.history.emails ++ t) ∧
      (draft_email net MODEL bodyThread ts mem).mem.history.chats = mem.history.chats ∧
      (draft_email net MODEL bodyThread ts mem).mem.history.tasks = mem.history.tasks) ∧
    (∀ (bodyAction : Option String) (mem : Memory),
      (xp_update bodyAction mem).mem.history = mem.history) ∧
    (∀ (MODEL : String) (mem : Memory), (health MODEL mem).mem = mem) ∧
    (∀ mem : Memory, (get_history mem).mem = mem) ∧
    (∀ mem : Memory,
      (clear_history mem).mem.history = ⟨[], [], []⟩ ∧
      (get_history (clear_history mem).mem).resp = ⟨[], [], []⟩) := by
  refine ⟨fun net bodyMessage ts mem => ?_, fun net MODEL bodyGoal ts mem => ?_,
    fun net MODEL bodyThread ts mem => ?_, fun bodyAction mem => rfl,
    fun MODEL mem => rfl, fun mem => rfl, fun mem => ⟨rfl, rfl⟩⟩
  · simp only [ask]
    split
    · exact ⟨⟨[], by simp⟩, rfl, rfl⟩
    · exact askLoop_history net _ ts _ askModels
  · simp only [create_tasks]
    split
    · split
      · exact ⟨⟨_, rfl⟩, rfl, rfl⟩
      · exact ⟨⟨[], by simp⟩, rfl, rfl⟩
    · exact ⟨⟨[], by simp⟩, rfl, rfl⟩
  · simp only [draft_email]
    split
    · exact ⟨⟨[], by simp⟩, rfl, rfl⟩
    · split
      · split
        · exact ⟨⟨_, rfl⟩, rfl, rfl⟩
        · exact ⟨⟨[], by simp⟩, rfl, rfl⟩
      · exact ⟨⟨[], by simp⟩, rfl, rfl⟩

/-- C9: `/api/draft-email` with a non-blank thread overwrites the
session-state field `last_chat` with the (stripped) thread text before the
upstream call, so `last_chat` is changed whatever the upstream does — even
when drafting fails — and the change is observable through `/api/health`. -/
theorem draft_email_overwrites_last_chat (net : Net) (MODEL : String)
    (bodyThread : Option String) (ts : Nat) (mem : Memory)
    (hne : pyStrip (bodyThread.getD "") ≠ "") :
    (draft_email net MODEL bodyThread ts mem).mem.last_chat =
      some (pyStrip (bodyThread.getD "")) ∧
    (∀ M2 : String,
      (health M2 (draft_email net MODEL bodyThread ts mem).mem).resp.last_chat =
        some (pyStrip (bodyThread.getD ""))) := by
  have h : (draft_email net MODEL bodyThread ts mem).mem.last_chat =
      some (pyStrip (bodyThread.getD "")) := by
    simp only [draft_email, if_neg hne]
    split
    · split
      · rfl
      · rfl
    · rfl
  exact ⟨h, fun M2 => h⟩

/-- C9 witness: on the always-failing network the draft fails, yet
`last_chat` now holds the stripped thread text and `/api/health` reports
it. -/
theorem draft_email_overwrites_last_chat_witness :
    (draft_email failNet "m" (some " Hi ") 0 initMemory).mem.last_chat = some "Hi" ∧
    (health "m" (draft_email failNet "m" (some " Hi ") 0 initMemory).mem).resp.last_chat =
      some "Hi" := by
  have h := draft_email_overwrites_last_chat failNet "m" (some " Hi ") 0 initMemory (by decide)
  have e : pyStrip ((some " Hi ").getD "") = "Hi" := by decide
  exact ⟨by rw [h.1, e], by rw [h.2 "m", e]⟩

/-- C10: `/api/tasks` uses the default goal `"Plan my day effectively"`
exactly when the `goal` key is absent from the request body; when `goal` is
present the stripped given string — in particular the empty string, for a
blank or whitespace-only goal — is sent to the upstream client as the goal,
with no emptiness check. -/
theorem create_tasks_goal_default (net : Net) (MODEL s : String) (ts : Nat)
    (mem : Memory) :
    (create_tasks net MODEL (some s) ts mem).calls = [tasksRequest MODEL (pyStrip s)] ∧
    (create_tasks net MODEL none ts mem).calls =
      [tasksRequest MODEL "Plan my day effectively"] := by
  have hd : pyStrip ((none : Option String).getD "Plan my day effectively") =
      "Plan my day effectively" := by decide
  constructor
  · simp only [create_tasks, Option.getD_some]
    split
    · split
      · rfl
      · rfl
    · rfl
  · simp only [create_tasks, hd]
    split
    · split
      · rfl
      · rfl
    · rfl

end Persona
